import Mathlib

/-!
Shallow embedding of the callback-registration core of the pipewire-rs
repository: `src/pipewire/src/loop_.rs` (signal source registration on a
loop) and `src/pipewire/src/port.rs` (port proxy operations, the listener
builder with its dispatch trampolines, and the port-info views).

Raw pointers are modelled as natural numbers with 0 as the null pointer.
Closures are identified by numeric ids; invoking a user closure is recorded
as an explicit call event, and native calls and deallocation steps are
recorded as explicit traces, so that ordering and exactly-once properties
can be stated.
-/

namespace Pipewire

/-- A fatal, non-recoverable failure: a Rust panic, a failed `expect`/`unwrap`
or assertion. This is the fatal precondition path; it never returns a value. -/
inductive Fatal where
  | assertionFailure (msg : String)
deriving DecidableEq, Repr

/-- Raw pointers are modelled as natural numbers; address 0 is the null pointer. -/
abbrev Ptr := Nat

/-- Embedding of `std::ptr::NonNull::new`: `none` exactly when the pointer is null. -/
def NonNull.new (p : Ptr) : Option Ptr :=
  if p = 0 then none else some p

/-- The ambient thread context of a call: the designated owning (main) thread
of the loop, and the thread the call is actually made on. -/
structure ThreadCtx where
  main : Nat
  current : Nat
deriving DecidableEq, Repr

/-- Modelled from the spec: `crate::utils::assert_main_thread` (from
`crate::utils`, not under `src/`) is "an explicit runtime assertion at entry to
registration operations" that the call occurs on the designated owning thread;
on any other thread it is a fatal precondition failure. -/
def assert_main_thread (t : ThreadCtx) : Except Fatal Unit :=
  if t.current = t.main then .ok () else .error (.assertionFailure "assert_main_thread")

/-! ## Loop: signal source registration (`loop_.rs`) -/

/-- Native calls made by the loop layer through `spa_loop_utils_methods`. -/
inductive LoopCall where
  | add_signal (signal : Int) (dataPtr : Ptr)
  | destroy_source (source : Ptr)
deriving DecidableEq, Repr

/-- Embedding of `Source<F, L>` from `loop_.rs`: the non-null native source
pointer together with the boxed closure. Closures are identified by a numeric
id, which also serves as the address of their `Box` (the opaque context
pointer handed across the FFI boundary). -/
structure Source where
  ptr : Ptr
  data : Nat
deriving DecidableEq, Repr

/-- Embedding of `Loop::add_signal_local`: asserts the main thread, boxes the
closure, calls the native `add_signal` method (whose returned source pointer is
the environment parameter `nativeSource`), and wraps the non-null result via
`NonNull::new(...).expect("source is NULL")`. Returns the list of native calls
performed together with either the handle or the fatal failure. -/
def add_signal_local (t : ThreadCtx) (signal : Int) (callback : Nat)
    (nativeSource : Ptr) : List LoopCall × Except Fatal Source :=
  match assert_main_thread t with
  | .error e => ([], .error e)
  | .ok _ =>
    let calls := [LoopCall.add_signal signal callback]
    match NonNull.new nativeSource with
    | none => (calls, .error (.assertionFailure "source is NULL"))
    | some p => (calls, .ok { ptr := p, data := callback })

/-- The observable steps of dropping a `Source`. -/
inductive SourceDropStep where
  | destroy_source (source : Ptr)
  | free_closure (dataPtr : Ptr)
deriving DecidableEq, Repr

/-- Embedding of `Drop for Source`: the drop body calls the loop method
`destroy_source` with the stored native pointer, and afterwards the `data`
field (the closure `Box`) is released as part of ordinary field teardown. -/
def Source.dropTrace (s : Source) : List SourceDropStep :=
  [.destroy_source s.ptr, .free_closure s.data]

/-- Tests whether a source drop step is the native unregistration. -/
def SourceDropStep.isUnregister : SourceDropStep → Bool
  | .destroy_source _ => true
  | .free_closure _ => false

/-- Tests whether a source drop step releases the closure allocation. -/
def SourceDropStep.isFree : SourceDropStep → Bool
  | .destroy_source _ => false
  | .free_closure _ => true

/-! ## Spa value types used by `port.rs` (external spa crate, opaque here) -/

/-- Modelled from the spec: `spa::param::ParamType` (from the external spa
crate) is "a typed parameter-kind value" wrapping the raw u32 id, "with a
reserved sentinel meaning any". -/
structure ParamType where
  raw : Nat
deriving DecidableEq, Repr

/-- Modelled from the spec: conversion of a raw parameter-id integer into the
typed parameter-kind value. -/
def ParamType.from_raw (r : Nat) : ParamType := ⟨r⟩

/-- Modelled from the spec: `spa::pod::Pod`, "an opaque parsed payload value",
constructed from a non-null native pointer and not interpreted here. -/
structure Pod where
  ptr : Ptr
deriving DecidableEq, Repr

/-- Modelled from the spec: construction of the opaque payload reference from a
native pointer. -/
def Pod.from_raw (p : Ptr) : Pod := ⟨p⟩

/-- Modelled from the spec: `spa::utils::Direction`, a typed wrapper over the
raw direction code. -/
structure Direction where
  raw : Nat
deriving DecidableEq, Repr

/-- Modelled from the spec: conversion of a raw direction code into the typed
direction value. -/
def Direction.from_raw (r : Nat) : Direction := ⟨r⟩

/-- Modelled from the spec: the output direction (raw spa code 1). -/
def Direction.output : Direction := ⟨1⟩

/-! ## Port info record and its views (`port.rs`) -/

/-- Embedding of the native `pw_sys::pw_port_info` record: object id, raw
direction code, change mask, property-dictionary pointer (possibly null),
parameter-descriptor array pointer (possibly null) and its element count. -/
structure pw_port_info where
  id : Nat
  direction : Nat
  change_mask : Nat
  props : Ptr
  params : Ptr
  n_params : Nat
deriving DecidableEq, Repr

/-- Embedding of `PortInfoRef`, the `repr(transparent)` borrowed view over a
`pw_port_info` record. -/
structure PortInfoRef where
  raw : pw_port_info
deriving DecidableEq, Repr

/-- Embedding of `PortInfoRef::id`: projection of the record's `id` field. -/
def PortInfoRef.id (i : PortInfoRef) : Nat := i.raw.id

/-- Embedding of `PortInfoRef::direction`: `Direction::from_raw` applied to the
record's `direction` field. -/
def PortInfoRef.direction (i : PortInfoRef) : Direction :=
  Direction.from_raw i.raw.direction

/-- Embedding of `PortInfoRef::props`: `NonNull::new(props).map(as_ref)`, so a
present dictionary reference exactly when the record's pointer is non-null.
The dictionary reference is the (non-null) pointer itself; its contents are
opaque to this layer. -/
def PortInfoRef.props (i : PortInfoRef) : Option Ptr :=
  NonNull.new i.raw.props

/-- Embedding of `PortInfoRef::params`: the empty slice when the `params`
pointer is null, otherwise `slice::from_raw_parts(params, n_params)`, a
zero-copy view of exactly `n_params` descriptors read from memory. `heap`
gives the parameter-descriptor value stored at each address (descriptors are
opaque, modelled as numbers). -/
def PortInfoRef.params (i : PortInfoRef) (heap : Ptr → Nat) : List Nat :=
  if i.raw.params = 0 then []
  else (List.range i.raw.n_params).map fun k => heap (i.raw.params + k)

/-- Embedding of the owned `PortInfo`: a non-null pointer to a native
`pw_port_info` record that it exclusively owns. -/
structure PortInfo where
  ptr : Ptr
deriving DecidableEq, Repr

/-- Embedding of `PortInfo::from_raw`:
`NonNull::new(raw).expect("Provided pointer is null")`. -/
def PortInfo.from_raw (raw : Ptr) : Except Fatal PortInfo :=
  match NonNull.new raw with
  | none => .error (.assertionFailure "Provided pointer is null")
  | some p => .ok ⟨p⟩

/-- The observable steps of dropping an owned `PortInfo`. -/
inductive PortInfoDropStep where
  | pw_port_info_free (ptr : Ptr)
deriving DecidableEq, Repr

/-- Embedding of `Drop for PortInfo`: calls the native `pw_port_info_free` on
the stored pointer. -/
def PortInfo.dropTrace (p : PortInfo) : List PortInfoDropStep :=
  [.pw_port_info_free p.ptr]

/-- Embedding of `PortInfo::into_raw`: wraps `self` in `ManuallyDrop`, so the
destructor never runs; returns the raw pointer and performs no native free. -/
def PortInfo.into_raw (p : PortInfo) : Ptr × List PortInfoDropStep :=
  (p.ptr, [])

/-! ## Port proxy, listener builder and dispatch (`port.rs`) -/

/-- Embedding of `ListenerLocalCallbacks`: at most one boxed closure per event
kind, identified by numeric ids. -/
structure ListenerLocalCallbacks where
  info : Option Nat
  param : Option Nat
deriving DecidableEq, Repr

/-- Embedding of `ListenerLocalCallbacks::default()`: no callbacks attached. -/
def ListenerLocalCallbacks.default : ListenerLocalCallbacks := ⟨none, none⟩

/-- Embedding of `Port`: the typed facade over a proxy, held as its pointer. -/
structure Port where
  proxy : Ptr
deriving DecidableEq, Repr

/-- Embedding of `PortListenerLocalBuilder`: the target port plus the
callbacks accumulated so far. -/
structure PortListenerLocalBuilder where
  port : Port
  cbs : ListenerLocalCallbacks
deriving DecidableEq, Repr

/-- Embedding of `Port::add_listener_local`: a fresh builder with default
(empty) callbacks. -/
def Port.add_listener_local (p : Port) : PortListenerLocalBuilder :=
  { port := p, cbs := ListenerLocalCallbacks.default }

/-- Embedding of `PortListenerLocalBuilder::info`: stores the closure in the
`info` slot, replacing any previous one. -/
def PortListenerLocalBuilder.info (b : PortListenerLocalBuilder) (f : Nat) :
    PortListenerLocalBuilder :=
  { b with cbs := { b.cbs with info := some f } }

/-- Embedding of `PortListenerLocalBuilder::param`: stores the closure in the
`param` slot, replacing any previous one. -/
def PortListenerLocalBuilder.param (b : PortListenerLocalBuilder) (f : Nat) :
    PortListenerLocalBuilder :=
  { b with cbs := { b.cbs with param := some f } }

/-- The only function that can occupy the `info` slot of the dispatch table:
the `port_events_info` trampoline. -/
inductive InfoSlotFn where
  | port_events_info
deriving DecidableEq, Repr

/-- The only function that can occupy the `param` slot of the dispatch table:
the `port_events_param` trampoline. -/
inductive ParamSlotFn where
  | port_events_param
deriving DecidableEq, Repr

/-- Modelled from the generated native bindings per the spec: the port-events
ABI version tag `PW_VERSION_PORT_EVENTS` (its exact value is immaterial). -/
def PW_VERSION_PORT_EVENTS : Nat := 0

/-- Embedding of the native `pw_sys::pw_port_events` dispatch table: a version
tag and one optional function-pointer slot per event kind (zeroed, i.e. unset,
unless explicitly filled in). -/
structure pw_port_events where
  version : Nat
  info : Option InfoSlotFn
  param : Option ParamSlotFn
deriving DecidableEq, Repr

/-- A recorded invocation of a user closure, with the arguments it receives. -/
inductive CallEvent where
  | callInfo (closure : Nat) (info : Ptr)
  | callParam (closure : Nat) (seq : Int) (id : ParamType) (index next : Nat)
      (pod : Option Pod)
deriving DecidableEq, Repr

/-- Embedding of the `port_events_info` trampoline: the native info pointer is
checked non-null via `expect("info is NULL")`, cast to the borrowed view, and
passed to the `info` closure obtained by `unwrap`. Returns the closure
invocations performed. -/
def port_events_info (cbs : ListenerLocalCallbacks) (info : Ptr) :
    Except Fatal (List CallEvent) :=
  match NonNull.new info with
  | none => .error (.assertionFailure "info is NULL")
  | some p =>
    match cbs.info with
    | none => .error (.assertionFailure "unwrap on None")
    | some f => .ok [.callInfo f p]

/-- Embedding of the `port_events_param` trampoline: the raw id is converted
with `ParamType::from_raw`, the payload pointer becomes `Some(Pod::from_raw p)`
when non-null and `None` when null, and the `param` closure obtained by
`unwrap` is invoked with the translated arguments. -/
def port_events_param (cbs : ListenerLocalCallbacks) (seq : Int) (id : Nat)
    (index next : Nat) (param : Ptr) : Except Fatal (List CallEvent) :=
  let idv := ParamType.from_raw id
  let pod := if param ≠ 0 then some (Pod.from_raw param) else none
  match cbs.param with
  | none => .error (.assertionFailure "unwrap on None")
  | some f => .ok [.callParam f seq idv index next pod]

/-- Native calls made by the port layer through `pw_port_methods`. -/
inductive PortCall where
  | add_listener (hookPtr : Ptr) (events : pw_port_events) (dataPtr : Ptr)
  | subscribe_params (idsPtr : Ptr) (n_ids : Nat)
deriving DecidableEq, Repr

/-- Embedding of `PortListener`: the pinned dispatch table, the pinned hook
node (held as its stable address) and the boxed callbacks. -/
structure PortListener where
  events : pw_port_events
  listener : Ptr
  data : ListenerLocalCallbacks
deriving DecidableEq, Repr

/-- Embedding of `PortListenerLocalBuilder::register`: builds a zeroed dispatch
table, sets its version tag, fills the `info` and `param` slots exactly when
the corresponding closure was configured, boxes the callbacks, and calls the
native `add_listener` with the hook address, the table and the context pointer.
`hookAddr` and `dataAddr` are the addresses of the pinned hook node and the
callbacks box. The ambient thread context is passed as in every call, but the
source performs no assertion on it, so the result does not depend on it. -/
def PortListenerLocalBuilder.register (b : PortListenerLocalBuilder)
    (_t : ThreadCtx) (hookAddr dataAddr : Ptr) :
    List PortCall × Except Fatal PortListener :=
  let e : pw_port_events :=
    { version := PW_VERSION_PORT_EVENTS
      info := if b.cbs.info.isSome then some .port_events_info else none
      param := if b.cbs.param.isSome then some .port_events_param else none }
  ([PortCall.add_listener hookAddr e dataAddr],
   .ok { events := e, listener := hookAddr, data := b.cbs })

/-- Modelled from the spec: native delivery of an info event to a registered
listener invokes the dispatch table's `info` slot with the registration's
context data exactly when the slot is set; "slots for absent callbacks remain
unset so the native side skips them". -/
def deliver_info (l : PortListener) (info : Ptr) : Except Fatal (List CallEvent) :=
  match l.events.info with
  | none => .ok []
  | some .port_events_info => port_events_info l.data info

/-- Modelled from the spec: native delivery of a param event to a registered
listener invokes the dispatch table's `param` slot with the registration's
context data exactly when the slot is set. -/
def deliver_param (l : PortListener) (seq : Int) (id index next : Nat)
    (param : Ptr) : Except Fatal (List CallEvent) :=
  match l.events.param with
  | none => .ok []
  | some .port_events_param => port_events_param l.data seq id index next param

/-- The observable steps of dropping a `PortListener`. -/
inductive ListenerDropStep where
  | hook_remove (hookPtr : Ptr)
  | free_events
  | free_hook
  | free_callbacks
deriving DecidableEq, Repr

/-- Embedding of `Drop for PortListener`: the drop body calls
`spa::utils::hook::remove` on the hook node, and afterwards the fields
`events` (dispatch table), `listener` (hook node) and `data` (callbacks box)
are released in declaration order as part of ordinary field teardown. -/
def PortListener.dropTrace (l : PortListener) : List ListenerDropStep :=
  [.hook_remove l.listener, .free_events, .free_hook, .free_callbacks]

/-- Tests whether a listener drop step is the native unregistration. -/
def ListenerDropStep.isUnregister : ListenerDropStep → Bool
  | .hook_remove _ => true
  | _ => false

/-- Tests whether a listener drop step releases one of the allocations held by
the handle (dispatch table, hook node or callbacks box). -/
def ListenerDropStep.isRelease : ListenerDropStep → Bool
  | .hook_remove _ => false
  | _ => true

/-- Embedding of `usize::try_into::<u32>` as used for the native count field:
succeeds exactly when the value fits in 32 bits. -/
def usize_to_u32 (n : Nat) : Option Nat :=
  if n < 2 ^ 32 then some n else none

/-- Embedding of `Port::subscribe_params`: converts `ids.len()` to the native
u32 count via `try_into().unwrap()` (a panic when it does not fit, before any
native call), then calls the native `subscribe_params` with the list pointer
and the converted count. `idsPtr` is the address of the id list. -/
def Port.subscribe_params (_p : Port) (idsPtr : Ptr) (ids : List Nat) :
    List PortCall × Except Fatal Unit :=
  match usize_to_u32 ids.length with
  | none => ([], .error (.assertionFailure "try_into failed"))
  | some n => ([PortCall.subscribe_params idsPtr n], .ok ())

/-! ## Theorems for the claims -/

/-- Claim C2: for every registration handle, destruction invokes the native
unregistration (`destroy_source` with the stored pointer for a `Source`, hook
removal for a `PortListener`) strictly before any of the handle's allocations
(the closure box; for a listener also the dispatch table and hook node) is
released: in the source drop trace the single unregistration step comes at
index 0 and the single closure release after it, and in the listener drop
trace the single hook removal comes at index 0 and every later step is a
release of one of the three allocations. -/
theorem claim_C2 (s : Source) (l : PortListener) :
    (s.dropTrace.findIdx SourceDropStep.isUnregister = 0 ∧
     s.dropTrace.findIdx SourceDropStep.isFree = 1 ∧
     s.dropTrace.filter SourceDropStep.isUnregister = [.destroy_source s.ptr] ∧
     s.dropTrace.filter SourceDropStep.isFree = [.free_closure s.data]) ∧
    (l.dropTrace.findIdx ListenerDropStep.isUnregister = 0 ∧
     l.dropTrace.filter ListenerDropStep.isUnregister = [.hook_remove l.listener] ∧
     l.dropTrace.tail.all ListenerDropStep.isRelease = true ∧
     l.dropTrace.countP ListenerDropStep.isRelease = 3) := by
  refine ⟨⟨?_, ?_, ?_, ?_⟩, ?_, ?_, ?_, ?_⟩ <;>
    simp [Source.dropTrace, PortListener.dropTrace, List.findIdx_cons,
      SourceDropStep.isUnregister, SourceDropStep.isFree,
      ListenerDropStep.isUnregister, ListenerDropStep.isRelease,
      List.countP_cons]

/-- Claim C6: dropping an owned `PortInfo` invokes the native
`pw_port_info_free` on the stored pointer exactly once; `into_raw` transfers
the pointer out and performs no free at all; and `from_raw` applied to the
null pointer is a fatal assertion failure. -/
theorem claim_C6 (p : PortInfo) :
    p.dropTrace.count (.pw_port_info_free p.ptr) = 1 ∧
    p.into_raw = (p.ptr, []) ∧
    PortInfo.from_raw 0 = .error (.assertionFailure "Provided pointer is null") := by
  refine ⟨?_, rfl, rfl⟩
  simp [PortInfo.dropTrace]

/-- Claim C9: attaching a closure for a given event kind on the listener
builder overwrites any previously attached closure for that kind: a second
`info` (resp. `param`) attachment replaces the first, attaching the same
closure twice equals attaching it once, and registration of a builder with two
successive attachments for a kind equals registration with only the last. -/
theorem claim_C9 (b : PortListenerLocalBuilder) (f g : Nat) (t : ThreadCtx)
    (hookAddr dataAddr : Ptr) :
    ((b.info f).info g = b.info g) ∧
    ((b.param f).param g = b.param g) ∧
    ((b.info f).info f = b.info f) ∧
    ((b.param f).param f = b.param f) ∧
    (((b.info f).info g).register t hookAddr dataAddr =
      (b.info g).register t hookAddr dataAddr) ∧
    (((b.param f).param g).register t hookAddr dataAddr =
      (b.param g).register t hookAddr dataAddr) :=
  ⟨rfl, rfl, rfl, rfl, rfl, rfl⟩

/-- Claim C10: registering directly from the empty builder state (zero
callbacks configured) still performs exactly the native `add_listener` call
and returns a handle whose dispatch table has the version tag set to the
port-events ABI version and both the `info` and `param` slots unset. -/
theorem claim_C10 (p : Port) (t : ThreadCtx) (hookAddr dataAddr : Ptr) :
    (p.add_listener_local).register t hookAddr dataAddr =
      ([PortCall.add_listener hookAddr
          { version := PW_VERSION_PORT_EVENTS, info := none, param := none } dataAddr],
       .ok { events := { version := PW_VERSION_PORT_EVENTS, info := none, param := none }
             listener := hookAddr
             data := ListenerLocalCallbacks.default }) :=
  rfl

/-- Claim C1, counterexample: the listener builder's `register`, invoked from
a thread (2) other than the designated owning thread (1), completes the
registration and returns a handle instead of taking the fatal precondition
path — `register` contains no thread assertion, so the claim that every
registration operation asserts the owning thread at entry is false. -/
theorem claim_C1_counterexample :
    ((Port.add_listener_local ⟨5⟩).register ⟨1, 2⟩ 10 11).2 =
      .ok { events := { version := PW_VERSION_PORT_EVENTS, info := none, param := none }
            listener := 10
            data := ListenerLocalCallbacks.default } :=
  rfl

/-- Claim C1 (amended): `add_signal_local` asserts at entry that it is invoked
on the designated owning thread, and invoking it from any other thread takes
the fatal precondition path before any native call; the listener builder's
`register`, by contrast, performs no thread assertion and completes the
registration returning a handle regardless of the invoking thread. -/
theorem claim_C1_amended (t : ThreadCtx) (h : t.current ≠ t.main)
    (signal : Int) (callback : Nat) (nativeSource : Ptr)
    (b : PortListenerLocalBuilder) (hookAddr dataAddr : Ptr) :
    add_signal_local t signal callback nativeSource =
      ([], .error (.assertionFailure "assert_main_thread")) ∧
    (b.register t hookAddr dataAddr).2 =
      .ok { events :=
              { version := PW_VERSION_PORT_EVENTS
                info := if b.cbs.info.isSome then some .port_events_info else none
                param := if b.cbs.param.isSome then some .port_events_param else none }
            listener := hookAddr
            data := b.cbs } := by
  constructor
  · simp [add_signal_local, assert_main_thread, h]
  · rfl

/-- Claim C1 witness: at the concrete off-owning-thread context (owning thread
1, invoking thread 2), `add_signal_local` fails with the fatal assertion and
performs no native call, while `register` on an empty builder succeeds. -/
theorem claim_C1_witness :
    add_signal_local ⟨1, 2⟩ 0 7 3 =
      ([], .error (.assertionFailure "assert_main_thread")) ∧
    ((Port.add_listener_local ⟨6⟩).register ⟨1, 2⟩ 20 21).2 =
      .ok { events := { version := PW_VERSION_PORT_EVENTS, info := none, param := none }
            listener := 20
            data := ListenerLocalCallbacks.default } :=
  claim_C1_amended ⟨1, 2⟩ (by decide) 0 7 3 (Port.add_listener_local ⟨6⟩) 20 21

/-- Claim C7: on the owning thread, if the native `add_signal` call yields a
null source pointer, `add_signal_local` fails with the fatal assertion
`source is NULL` (after the single native call, not as a recoverable result);
if it yields a non-null pointer, exactly one native `add_signal` call is made
and the returned handle stores that pointer together with the boxed
closure. -/
theorem claim_C7 (t : ThreadCtx) (ht : t.current = t.main) (signal : Int)
    (callback : Nat) (nativeSource : Ptr) :
    (nativeSource = 0 →
      add_signal_local t signal callback nativeSource =
        ([LoopCall.add_signal signal callback],
         .error (.assertionFailure "source is NULL"))) ∧
    (nativeSource ≠ 0 →
      (add_signal_local t signal callback nativeSource).1.countP
          (fun c => match c with
            | .add_signal _ _ => true
            | .destroy_source _ => false) = 1 ∧
      (add_signal_local t signal callback nativeSource).2 =
        .ok { ptr := nativeSource, data := callback }) := by
  constructor
  · intro h0
    simp [add_signal_local, assert_main_thread, ht, NonNull.new, h0]
  · intro hn
    constructor
    · simp [add_signal_local, assert_main_thread, ht, NonNull.new, hn,
        List.countP_cons]
    · simp [add_signal_local, assert_main_thread, ht, NonNull.new, hn]

/-- Claim C7 witness: on the owning thread (thread 1), a null native source
yields the fatal `source is NULL` failure after the native call, and a
non-null native source (42) yields a handle storing pointer 42 and closure
7. -/
theorem claim_C7_witness :
    add_signal_local ⟨1, 1⟩ 2 7 0 =
      ([LoopCall.add_signal 2 7], .error (.assertionFailure "source is NULL")) ∧
    (add_signal_local ⟨1, 1⟩ 2 7 42).2 = .ok { ptr := 42, data := 7 } :=
  ⟨(claim_C7 ⟨1, 1⟩ rfl 2 7 0).1 rfl,
   ((claim_C7 ⟨1, 1⟩ rfl 2 7 42).2 (by decide)).2⟩

/-- Claim C3: the dispatch table produced by `register` has its `info` slot
set exactly when an info closure was configured and its `param` slot set
exactly when a param closure was configured; delivering an event of an
unconfigured kind invokes no user closure, and delivering an event of a
configured kind invokes exactly the configured closure once. -/
theorem claim_C3 (b : PortListenerLocalBuilder) (t : ThreadCtx)
    (hookAddr dataAddr infoPtr paramPtr : Ptr) (seq : Int)
    (id index next : Nat) (l : PortListener)
    (hreg : (b.register t hookAddr dataAddr).2 = .ok l)
    (hinfo : infoPtr ≠ 0) :
    (l.events.info.isSome = b.cbs.info.isSome) ∧
    (l.events.param.isSome = b.cbs.param.isSome) ∧
    (b.cbs.info = none → deliver_info l infoPtr = .ok []) ∧
    (∀ f, b.cbs.info = some f →
      deliver_info l infoPtr = .ok [.callInfo f infoPtr]) ∧
    (b.cbs.param = none → deliver_param l seq id index next paramPtr = .ok []) ∧
    (∀ f, b.cbs.param = some f →
      deliver_param l seq id index next paramPtr =
        .ok [.callParam f seq (ParamType.from_raw id) index next
              (if paramPtr ≠ 0 then some (Pod.from_raw paramPtr) else none)]) := by
  have hl : l = { events :=
                    { version := PW_VERSION_PORT_EVENTS
                      info := if b.cbs.info.isSome then some .port_events_info else none
                      param := if b.cbs.param.isSome then some .port_events_param else none }
                  listener := hookAddr
                  data := b.cbs } := by
    simpa [PortListenerLocalBuilder.register] using hreg.symm
  subst hl
  refine ⟨?_, ?_, ?_, ?_, ?_, ?_⟩
  · cases h : b.cbs.info <;> simp [h]
  · cases h : b.cbs.param <;> simp [h]
  · intro h
    simp [deliver_info, h]
  · intro f h
    simp [deliver_info, h, port_events_info, NonNull.new, hinfo]
  · intro h
    simp [deliver_param, h]
  · intro f h
    simp [deliver_param, h, port_events_param]

/-- Claim C3 witness: a listener registered with only a param closure (id 3)
has its `info` slot unset and its `param` slot set; delivering an info event
invokes no closure, and delivering a param event invokes closure 3 exactly
once with the translated arguments. -/
theorem claim_C3_witness :
    deliver_info
      { events := { version := PW_VERSION_PORT_EVENTS, info := none
                    param := some .port_events_param }
        listener := 10, data := { info := none, param := some 3 } } 7 = .ok [] ∧
    deliver_param
      { events := { version := PW_VERSION_PORT_EVENTS, info := none
                    param := some .port_events_param }
        listener := 10, data := { info := none, param := some 3 } } 9 2 0 1 8 =
      .ok [.callParam 3 9 (ParamType.from_raw 2) 0 1 (some (Pod.from_raw 8))] := by
  have h := claim_C3 ((Port.add_listener_local ⟨5⟩).param 3) ⟨1, 1⟩ 10 11 7 8 9 2 0 1
      { events := { version := PW_VERSION_PORT_EVENTS, info := none
                    param := some .port_events_param }
        listener := 10, data := { info := none, param := some 3 } } rfl (by decide)
  refine ⟨h.2.2.1 rfl, ?_⟩
  have h6 := h.2.2.2.2.2 3 rfl
  simpa using h6

/-- Claim C4: whenever the param-event trampoline runs with a configured param
closure, the raw parameter id is converted with `ParamType::from_raw` before
the closure is called, the payload argument is `none` exactly when the native
pointer is null and `some (Pod.from_raw p)` exactly when it is non-null, and
any payload reference handed to the closure has a non-null pointer. -/
theorem claim_C4 (cbs : ListenerLocalCallbacks) (f : Nat) (seq : Int)
    (id index next : Nat) (p : Ptr) (hf : cbs.param = some f) :
    (p = 0 → port_events_param cbs seq id index next p =
      .ok [.callParam f seq (ParamType.from_raw id) index next none]) ∧
    (p ≠ 0 → port_events_param cbs seq id index next p =
      .ok [.callParam f seq (ParamType.from_raw id) index next
            (some (Pod.from_raw p))]) ∧
    (∀ pod : Pod, port_events_param cbs seq id index next p =
        .ok [.callParam f seq (ParamType.from_raw id) index next (some pod)] →
      pod.ptr ≠ 0) := by
  refine ⟨?_, ?_, ?_⟩
  · intro h0
    simp [port_events_param, hf, h0]
  · intro hn
    simp [port_events_param, hf, hn]
  · intro pod hok
    by_cases h0 : p = 0
    · simp [port_events_param, hf, h0] at hok
    · simp [port_events_param, hf, h0, Pod.from_raw] at hok
      subst hok
      exact h0

/-- Claim C4 witness: with param closure 4 configured, a null payload pointer
is delivered as `none` and a non-null pointer 6 as `some (Pod.from_raw 6)`,
both with the raw id 2 converted to the typed parameter kind. -/
theorem claim_C4_witness :
    port_events_param { info := none, param := some 4 } 1 2 0 1 0 =
      .ok [.callParam 4 1 (ParamType.from_raw 2) 0 1 none] ∧
    port_events_param { info := none, param := some 4 } 1 2 0 1 6 =
      .ok [.callParam 4 1 (ParamType.from_raw 2) 0 1 (some (Pod.from_raw 6))] :=
  ⟨(claim_C4 { info := none, param := some 4 } 4 1 2 0 1 0 rfl).1 rfl,
   (claim_C4 { info := none, param := some 4 } 4 1 2 0 1 6 rfl).2.1 (by decide)⟩

/-- Claim C5: the borrowed port-info view is a pure projection of the record:
`props` is present exactly when the record's property pointer is non-null (and
is then that pointer), `params` is empty exactly when the parameter pointer is
null or the count is zero and otherwise has length exactly the declared count,
and `id` and `direction` return the record's `id` and `direction` fields. -/
theorem claim_C5 (i : PortInfoRef) (heap : Ptr → Nat) :
    (i.props = none ↔ i.raw.props = 0) ∧
    (i.raw.props ≠ 0 → i.props = some i.raw.props) ∧
    (i.params heap = [] ↔ i.raw.params = 0 ∨ i.raw.n_params = 0) ∧
    (i.raw.params ≠ 0 → (i.params heap).length = i.raw.n_params) ∧
    i.id = i.raw.id ∧
    i.direction = Direction.from_raw i.raw.direction := by
  refine ⟨?_, ?_, ?_, ?_, rfl, rfl⟩
  · constructor
    · intro h
      by_contra hne
      simp [PortInfoRef.props, NonNull.new, hne] at h
    · intro h
      simp [PortInfoRef.props, NonNull.new, h]
  · intro h
    simp [PortInfoRef.props, NonNull.new, h]
  · by_cases h : i.raw.params = 0
    · simp [PortInfoRef.params, h]
    · simp [PortInfoRef.params, h, List.range_eq_nil]
  · intro h
    simp [PortInfoRef.params, h]

/-- Claim C5 witness: for the synthetic record with id 7, direction code 1
(output), a null property pointer, and a non-null parameter array of declared
count 3, the view reports id 7, direction output, absent props and a
parameter slice of length 3. -/
theorem claim_C5_witness :
    PortInfoRef.props ⟨⟨7, 1, 0, 0, 20, 3⟩⟩ = none ∧
    (PortInfoRef.params ⟨⟨7, 1, 0, 0, 20, 3⟩⟩ (fun _ => 0)).length = 3 ∧
    PortInfoRef.id ⟨⟨7, 1, 0, 0, 20, 3⟩⟩ = 7 ∧
    PortInfoRef.direction ⟨⟨7, 1, 0, 0, 20, 3⟩⟩ = Direction.output := by
  have h := claim_C5 ⟨⟨7, 1, 0, 0, 20, 3⟩⟩ (fun _ => 0)
  exact ⟨h.1.mpr rfl, h.2.2.2.1 (by decide), h.2.2.2.2.1, h.2.2.2.2.2⟩

/-- Claim C8: `subscribe_params` converts the id-list length to the native
32-bit count before any native call: when the length does not fit in 32 bits
the operation fails with the fatal conversion panic and makes no native call,
and when it fits the single native `subscribe_params` call receives the list
pointer and the converted count. -/
theorem claim_C8 (p : Port) (idsPtr : Ptr) (ids : List Nat) :
    (2 ^ 32 ≤ ids.length →
      p.subscribe_params idsPtr ids =
        ([], .error (.assertionFailure "try_into failed"))) ∧
    (ids.length < 2 ^ 32 →
      p.subscribe_params idsPtr ids =
        ([PortCall.subscribe_params idsPtr ids.length], .ok ())) := by
  constructor
  · intro h
    have hc : usize_to_u32 ids.length = none := by
      unfold usize_to_u32
      rw [if_neg (Nat.not_lt.mpr h)]
    unfold Port.subscribe_params
    rw [hc]
  · intro h
    have hc : usize_to_u32 ids.length = some ids.length := by
      unfold usize_to_u32
      rw [if_pos h]
    unfold Port.subscribe_params
    rw [hc]

/-- Claim C8 witness: a two-element id list is forwarded with count 2, and a
list of length 2^32 (which does not fit the native 32-bit count) makes the
operation fail fatally with no native call. -/
theorem claim_C8_witness :
    Port.subscribe_params ⟨1⟩ 5 [2, 3] =
      ([PortCall.subscribe_params 5 2], .ok ()) ∧
    Port.subscribe_params ⟨1⟩ 5 (List.replicate (2 ^ 32) 0) =
      ([], .error (.assertionFailure "try_into failed")) :=
  ⟨(claim_C8 ⟨1⟩ 5 [2, 3]).2 (by norm_num),
   (claim_C8 ⟨1⟩ 5 (List.replicate (2 ^ 32) 0)).1 (List.length_replicate _ _).ge⟩

end Pipewire
